import Mathlib

/-!
A shallow embedding of the `java_type_checker` expression package
(`java_type_checker/expressions.py`): a static type checker for a small
Java-like expression language.  Expressions are `Variable`, `Literal`
(the null literal being a `Literal` carrying the null type), `MethodCall`
and `ConstructorCall`; each exposes `static_type` and `check_types`.

The expression checker is translated directly from `expressions.py`.
The supporting type model (`types.py`, imported by the source as
`from .types import Type`) is not part of the provided sources, so it is
modelled from the specification, section 4.1; every definition that comes
from the spec rather than from source code says so in its doc comment.

Python exceptions are embedded with `Except`: the checker either returns
normally (`Except.ok`) or raises (`Except.error`).  The error type
distinguishes the deliberate `JavaTypeError` signal from any other
Python-level failure (such as an `AttributeError` from touching a missing
attribute), so that "raises the type error signal" is a precise statement.
-/

mutual

/-- Modelled from the spec: the Type model of `types.py` is absent from the
sources.  A `JType` is one class/interface: a name, an optional supertype
(single-inheritance chain rooted at Object), a method table, an optional
constructor signature, an `is_instantiable` flag, and a null-type marker
(section 3 of the spec).  The chain is finite and acyclic by construction. -/
inductive JType : Type where
  | mk : String → Option JType → List JMethod → Option JConstructor → Bool → Bool → JType

/-- Modelled from the spec: a method signature is a name, an ordered
sequence of parameter types and a return type (spec section 3). -/
inductive JMethod : Type where
  | mk : String → List JType → JType → JMethod

/-- Modelled from the spec: a constructor signature is an ordered sequence
of parameter types, with no name or return type (spec section 3). -/
inductive JConstructor : Type where
  | mk : List JType → JConstructor

end

def JType.name : JType → String
  | .mk n _ _ _ _ _ => n

def JType.supertype : JType → Option JType
  | .mk _ s _ _ _ _ => s

def JType.methods : JType → List JMethod
  | .mk _ _ ms _ _ _ => ms

def JType.constructor : JType → Option JConstructor
  | .mk _ _ _ c _ _ => c

def JType.is_instantiable : JType → Bool
  | .mk _ _ _ _ inst _ => inst

def JType.is_null : JType → Bool
  | .mk _ _ _ _ _ nl => nl

def JMethod.name : JMethod → String
  | .mk n _ _ => n

def JMethod.argument_types : JMethod → List JType
  | .mk _ ts _ => ts

def JMethod.return_type : JMethod → JType
  | .mk _ _ r => r

def JConstructor.argument_types : JConstructor → List JType
  | .mk ts => ts

/-- Modelled from the spec: the distinguished root reference type
`Type.object`, the universal "has methods" capability floor; not
instantiable (spec section 4.1).  Per the spec's registry design note,
types are identified by their names, so the root is the type named
`Object`. -/
def JType.object : JType := .mk "Object" none [] none false false

/-- Modelled from the spec: the distinguished null type `Type.null`, the
bottom type for references; not instantiable (spec section 4.1). -/
def JType.null : JType := .mk "null" none [] none false true

/-- Modelled from the spec: whether the supertype chain starting at (and
including) this type contains a type of the given name.  Python compares
`Type` objects by identity; per the spec's registry-by-name design note a
name identifies a unique `Type`, so the embedding compares names. -/
def JType.chain_contains : JType → String → Bool
  | .mk n sup _ _ _ _, target =>
    n == target ||
      (match sup with
       | none => false
       | some s => s.chain_contains target)

/-- Modelled from the spec, section 4.1: `is_subtype_of(other)` is true iff
`self == other`, or `self` is the null type and `other` is any reference
type (a type whose chain reaches the root `Object`), or walking `self`'s
supertype chain reaches `other`. -/
def JType.is_subtype_of (self other : JType) : Bool :=
  self.chain_contains other.name ||
    (self.is_null && !other.is_null && other.chain_contains "Object")

/-- Modelled from the spec, section 4.1: search this type's method table
for a method of the given name. -/
def find_method : List JMethod → String → Option JMethod
  | [], _ => none
  | sig :: rest, m => if sig.name == m then some sig else find_method rest m

/-- Modelled from the spec, section 4.1: `method_named(name)` searches
`self`'s method table, then each ancestor in turn via the supertype chain,
returning the first match (nearest-ancestor wins).  `none` is the
failure condition that surfaces as a type error at a use site. -/
def JType.method_named : JType → String → Option JMethod
  | .mk _ sup methods _ _ _, m =>
    match find_method methods m with
    | some sig => some sig
    | none =>
      match sup with
      | none => none
      | some s => s.method_named m

/-- The outcome of raising: the deliberate `JavaTypeError` signal of
`expressions.py`, or any other Python-level failure (for instance the
`AttributeError` that would come from reading `argument_types` off a
missing constructor). -/
inductive ErrorSignal : Type where
  | javaTypeError (message : String)
  | pythonError (message : String)
deriving DecidableEq

/-- The expression AST of `expressions.py`: `Variable(name, declared_type)`,
`Literal(value, type)`, `MethodCall(receiver, method_name, *args)` and
`ConstructorCall(instantiated_type, *args)`.  `NullLiteral` is not a
separate variant: as in the source it is a `Literal` carrying the null
type. -/
inductive Expr : Type where
  | var (name : String) (declared_type : JType)
  | literal (value : String) (type : JType)
  | methodCall (receiver : Expr) (method_name : String) (args : List Expr)
  | constructorCall (instantiated_type : JType) (args : List Expr)

/-- `NullLiteral()` of the source: a `Literal` with value `"null"` and the
null type, via `super().__init__("null", Type.null)`. -/
def null_literal : Expr := .literal "null" JType.null

/-- The `names` helper of `expressions.py`:
`"(" + ", ".join([e.name for e in named_things]) + ")"`. -/
def names (named_things : List JType) : String :=
  "(" ++ String.intercalate ", " (named_things.map JType.name) ++ ")"

/-- Modelled from the spec: the type error raised when `method_named`
resolves nothing anywhere on the chain — "an unresolved method name must
itself surface as a type error at this point" (spec sections 4.1 and 4.5).
The exact message text is not given by the sources. -/
def no_such_method_error (t : JType) (m : String) : ErrorSignal :=
  .javaTypeError ("Type " ++ t.name ++ " has no method named " ++ m)

/-- `static_type()` of each variant, from `expressions.py`: the declared
type for `Variable`, the carried type for `Literal`, the resolved method's
return type for `MethodCall`, the instantiated type for
`ConstructorCall`.  For `MethodCall` the computation
`receiver.static_type().method_named(name).return_type` can itself raise
when the method does not exist. -/
def static_type : Expr → Except ErrorSignal JType
  | .var _ declared_type => .ok declared_type
  | .literal _ t => .ok t
  | .methodCall receiver method_name _ => do
    let receiver_type ← static_type receiver
    match receiver_type.method_named method_name with
    | some sig => .ok sig.return_type
    | none => .error (no_such_method_error receiver_type method_name)
  | .constructorCall instantiated_type _ => .ok instantiated_type

/-- The list comprehension `[a.static_type() for a in self.args]`,
evaluated left to right. -/
def static_types_of : List Expr → Except ErrorSignal (List JType)
  | [] => .ok []
  | a :: rest => do
    let t ← static_type a
    let ts ← static_types_of rest
    .ok (t :: ts)

/-- The argument-compatibility loop shared by `MethodCall.check_types` and
`ConstructorCall.check_types`:
`for i in range(0, len(expected_arg_types)):` check
`self.args[i].static_type().is_subtype_of(expected_arg_types[i])` and on
the first failure raise the mismatch error built from the static types of
ALL the call's arguments.  `mismatch` carries the surrounding call's
message format with the full expected sequence already baked in;
`all_args` is the full argument list `self.args`.  Indexing past the end
of `self.args` would be a Python `IndexError` (unreachable after the arity
check). -/
def check_args_loop (mismatch : List JType → ErrorSignal) (all_args : List Expr) :
    List JType → List Expr → Except ErrorSignal Unit
  | [], _ => .ok ()
  | _ :: _, [] => .error (.pythonError "IndexError: tuple index out of range")
  | expected_type :: expected_rest, arg :: args_rest => do
    let arg_type ← static_type arg
    if arg_type.is_subtype_of expected_type then
      check_args_loop mismatch all_args expected_rest args_rest
    else do
      let actual_types ← static_types_of all_args
      .error (mismatch actual_types)

mutual

/-- `check_types()` of each variant, from `expressions.py`.  `Variable` and
`Literal` return immediately.  `MethodCall` checks the receiver, then each
argument; then requires the receiver type to be a subtype of `Type.object`
("Type X does not have methods"), resolves the method (an unresolved name
raises), requires matching argument count ("Wrong number of arguments
..."), and finally checks each argument's type against the declaration.
`ConstructorCall` checks each argument; then requires
`instantiated_type.is_instantiable` ("Type X is not instantiable"), reads
`instantiated_type.constructor.argument_types` (an `AttributeError` if the
constructor is missing), requires matching argument count, and checks each
argument's type. -/
def check_types : Expr → Except ErrorSignal Unit
  | .var _ _ => .ok ()
  | .literal _ _ => .ok ()
  | .methodCall receiver method_name args => do
    check_types receiver
    check_types_list args
    let receiver_type ← static_type receiver
    if !receiver_type.is_subtype_of JType.object then
      .error (.javaTypeError ("Type " ++ receiver_type.name ++ " does not have methods"))
    else
      match receiver_type.method_named method_name with
      | none => .error (no_such_method_error receiver_type method_name)
      | some sig =>
        if sig.argument_types.length ≠ args.length then
          .error (.javaTypeError ("Wrong number of arguments for " ++
            receiver_type.name ++ "." ++ method_name ++ "(): expected " ++
            toString sig.argument_types.length ++ ", got " ++ toString args.length))
        else
          check_args_loop
            (fun actual_types => .javaTypeError (receiver_type.name ++ "." ++
              method_name ++ "() expects arguments of type " ++
              names sig.argument_types ++ ", but got " ++ names actual_types))
            args sig.argument_types args
  | .constructorCall instantiated_type args => do
    check_types_list args
    if !instantiated_type.is_instantiable then
      .error (.javaTypeError ("Type " ++ instantiated_type.name ++ " is not instantiable"))
    else
      match instantiated_type.constructor with
      | none => .error (.pythonError
          "AttributeError: NoneType object has no attribute argument_types")
      | some ctor =>
        if ctor.argument_types.length ≠ args.length then
          .error (.javaTypeError ("Wrong number of arguments for " ++
            instantiated_type.name ++ " constructor: expected " ++
            toString ctor.argument_types.length ++ ", got " ++ toString args.length))
        else
          check_args_loop
            (fun actual_types => .javaTypeError (instantiated_type.name ++
              " constructor expects arguments of type " ++
              names ctor.argument_types ++ ", but got " ++ names actual_types))
            args ctor.argument_types args

/-- The `for arg in self.args: arg.check_types()` loops of the source,
checking a list of child expressions left to right. -/
def check_types_list : List Expr → Except ErrorSignal Unit
  | [] => .ok ()
  | e :: rest => do
    check_types e
    check_types_list rest

end

/-- The position of the first argument whose static type fails the subtype
test against the corresponding expected parameter type, if any: the index
at which the source's argument-compatibility loop raises. -/
def first_bad_index : List JType → List JType → Option Nat
  | expected_type :: expected_rest, arg_type :: ts_rest =>
    if arg_type.is_subtype_of expected_type then
      (first_bad_index expected_rest ts_rest).map (fun j => j + 1)
    else some 0
  | _, _ => none

/-- A concrete hierarchy in the style of the spec's scenarios, used to
instantiate the theorems below: a primitive `int` outside the reference
hierarchy. -/
def jint : JType := .mk "int" none [] none false false

/-- A `void` return type, outside the reference hierarchy. -/
def void_t : JType := .mk "void" none [] none false false

/-- `Animal`: instantiable subtype of `Object` with a zero-argument
constructor. -/
def animal : JType := .mk "Animal" (some JType.object) [] (some (.mk [])) true false

/-- `Dog`: instantiable subtype of `Animal` with methods
`bark(): void` and `feed(Animal, Animal): void`. -/
def dog : JType := .mk "Dog" (some animal)
  [.mk "bark" [] void_t, .mk "feed" [animal, animal] void_t] (some (.mk [])) true false

/-- `House`: instantiable subtype of `Object` whose constructor takes one
`Animal`. -/
def house : JType := .mk "House" (some JType.object) [] (some (.mk [animal])) true false

/-- `Spirit`: a non-instantiable subtype of `Object` that nevertheless
carries a zero-argument constructor signature. -/
def spirit : JType := .mk "Spirit" (some JType.object) [] (some (.mk [])) false false

theorem except_ok_bind {α β : Type} (a : α) (f : α → Except ErrorSignal β) :
    (Except.ok a >>= f) = f a := rfl

theorem except_error_bind {α β : Type} (e : ErrorSignal) (f : α → Except ErrorSignal β) :
    ((Except.error e : Except ErrorSignal α) >>= f) = Except.error e := rfl

theorem static_types_of_cons (a : Expr) (rest : List Expr) (ts : List JType)
    (h : static_types_of (a :: rest) = .ok ts) :
    ∃ t ts', static_type a = .ok t ∧ static_types_of rest = .ok ts' ∧ ts = t :: ts' := by
  cases ha : static_type a with
  | error f => simp [static_types_of, ha, except_error_bind] at h
  | ok t =>
    cases hrest : static_types_of rest with
    | error f => simp [static_types_of, ha, hrest, except_ok_bind, except_error_bind] at h
    | ok ts' =>
      refine ⟨t, ts', rfl, rfl, ?_⟩
      simp [static_types_of, ha, hrest, except_ok_bind] at h
      exact h.symm

theorem check_args_loop_first_bad (mismatch : List JType → ErrorSignal)
    (all_args : List Expr) (full_ts : List JType)
    (hall : static_types_of all_args = .ok full_ts) :
    ∀ (expected : List JType) (args : List Expr) (ts : List JType) (i : Nat),
      static_types_of args = .ok ts →
      first_bad_index expected ts = some i →
      check_args_loop mismatch all_args expected args = .error (mismatch full_ts) := by
  intro expected
  induction expected with
  | nil => intro args ts i _ hbad; simp [first_bad_index] at hbad
  | cons e es ih =>
    intro args ts i hts hbad
    cases args with
    | nil =>
      simp [static_types_of] at hts
      subst hts
      simp [first_bad_index] at hbad
    | cons a rest =>
      obtain ⟨t, ts', ha, hrest, hcons⟩ := static_types_of_cons a rest ts hts
      subst hcons
      by_cases hsub : t.is_subtype_of e = true
      · rw [first_bad_index] at hbad
        rw [if_pos hsub] at hbad
        obtain ⟨j, hj, _⟩ := Option.map_eq_some'.mp hbad
        simp [check_args_loop, ha, hsub, except_ok_bind]
        exact ih rest ts' j hrest hj
      · simp [check_args_loop, ha, hsub, except_ok_bind, hall]

/-- C2: a MethodCall whose receiver type passes the root-reference-type
check but resolves no method of the called name anywhere on its chain is
rejected at the method-resolution step with the JavaTypeError signal,
regardless of the call's arity or argument types. -/
theorem unresolved_method_is_type_error
    (receiver : Expr) (method_name : String) (args : List Expr) (receiver_type : JType)
    (hr : check_types receiver = .ok ())
    (ha : check_types_list args = .ok ())
    (ht : static_type receiver = .ok receiver_type)
    (hsub : receiver_type.is_subtype_of JType.object = true)
    (hm : receiver_type.method_named method_name = none) :
    check_types (.methodCall receiver method_name args) =
      .error (.javaTypeError ("Type " ++ receiver_type.name ++
        " has no method named " ++ method_name)) := by
  simp [check_types, hr, ha, ht, hsub, hm, except_ok_bind, no_such_method_error]

/-- C4: a MethodCall or ConstructorCall whose argument count differs from
the declared parameter count is rejected with an arity-mismatch message
naming the expected and the actual count, whatever the argument types
are — the per-argument compatibility phase is never reached. -/
theorem arity_mismatch_before_arg_types :
    (∀ (receiver : Expr) (method_name : String) (args : List Expr)
       (receiver_type : JType) (sig : JMethod),
      check_types receiver = .ok () →
      check_types_list args = .ok () →
      static_type receiver = .ok receiver_type →
      receiver_type.is_subtype_of JType.object = true →
      receiver_type.method_named method_name = some sig →
      sig.argument_types.length ≠ args.length →
      check_types (.methodCall receiver method_name args) =
        .error (.javaTypeError ("Wrong number of arguments for " ++
          receiver_type.name ++ "." ++ method_name ++ "(): expected " ++
          toString sig.argument_types.length ++ ", got " ++ toString args.length))) ∧
    (∀ (instantiated_type : JType) (args : List Expr) (ctor : JConstructor),
      check_types_list args = .ok () →
      instantiated_type.is_instantiable = true →
      instantiated_type.constructor = some ctor →
      ctor.argument_types.length ≠ args.length →
      check_types (.constructorCall instantiated_type args) =
        .error (.javaTypeError ("Wrong number of arguments for " ++
          instantiated_type.name ++ " constructor: expected " ++
          toString ctor.argument_types.length ++ ", got " ++ toString args.length))) := by
  constructor
  · intro receiver method_name args receiver_type sig hr ha ht hsub hm hlen
    simp [check_types, hr, ha, ht, hsub, hm, hlen, except_ok_bind]
  · intro instantiated_type args ctor ha hinst hctor hlen
    simp [check_types, ha, hinst, hctor, hlen, except_ok_bind]

/-- C1: when a call's children pass their checks and its arity check
passes, the argument loop walks the indices in order and, at the first
index whose static type fails the subtype test against the declared
parameter type, raises the JavaTypeError naming the receiver type, the
method name, the full expected parameter-type sequence and the static
types of ALL the arguments; the error does not depend on anything past
the first failing index.  The ConstructorCall half is the same with the
instantiated type in place of receiver type and method name. -/
theorem arg_type_mismatch_first_failure :
    (∀ (receiver : Expr) (method_name : String) (args : List Expr)
       (receiver_type : JType) (sig : JMethod) (ts : List JType) (i : Nat),
      check_types receiver = .ok () →
      check_types_list args = .ok () →
      static_type receiver = .ok receiver_type →
      receiver_type.is_subtype_of JType.object = true →
      receiver_type.method_named method_name = some sig →
      sig.argument_types.length = args.length →
      static_types_of args = .ok ts →
      first_bad_index sig.argument_types ts = some i →
      check_types (.methodCall receiver method_name args) =
        .error (.javaTypeError (receiver_type.name ++ "." ++ method_name ++
          "() expects arguments of type " ++ names sig.argument_types ++
          ", but got " ++ names ts))) ∧
    (∀ (instantiated_type : JType) (args : List Expr)
       (ctor : JConstructor) (ts : List JType) (i : Nat),
      check_types_list args = .ok () →
      instantiated_type.is_instantiable = true →
      instantiated_type.constructor = some ctor →
      ctor.argument_types.length = args.length →
      static_types_of args = .ok ts →
      first_bad_index ctor.argument_types ts = some i →
      check_types (.constructorCall instantiated_type args) =
        .error (.javaTypeError (instantiated_type.name ++
          " constructor expects arguments of type " ++ names ctor.argument_types ++
          ", but got " ++ names ts))) := by
  constructor
  · intro receiver method_name args receiver_type sig ts i hr ha ht hsub hm hlen hts hbad
    simp [check_types, hr, ha, ht, hsub, hm, hlen, except_ok_bind]
    exact check_args_loop_first_bad _ args ts hts sig.argument_types args ts i hts hbad
  · intro instantiated_type args ctor ts i ha hinst hctor hlen hts hbad
    simp [check_types, ha, hinst, hctor, hlen, except_ok_bind]
    exact check_args_loop_first_bad _ args ts hts ctor.argument_types args ts i hts hbad

/-- C3: the check is a postorder walk.  A MethodCall checks its receiver
first, then its arguments left to right, before any of its own
validation, and a ConstructorCall checks its arguments first; so an error
signalled inside a child subtree is the parent's result, whatever
violations the parent node itself would have. -/
theorem children_checked_before_parent :
    (∀ (receiver : Expr) (method_name : String) (args : List Expr) (f : ErrorSignal),
      check_types receiver = .error f →
      check_types (.methodCall receiver method_name args) = .error f) ∧
    (∀ (receiver : Expr) (method_name : String) (args : List Expr) (f : ErrorSignal),
      check_types receiver = .ok () →
      check_types_list args = .error f →
      check_types (.methodCall receiver method_name args) = .error f) ∧
    (∀ (instantiated_type : JType) (args : List Expr) (f : ErrorSignal),
      check_types_list args = .error f →
      check_types (.constructorCall instantiated_type args) = .error f) ∧
    (∀ (a : Expr) (rest : List Expr) (f : ErrorSignal),
      check_types a = .error f →
      check_types_list (a :: rest) = .error f) ∧
    (∀ (a : Expr) (rest : List Expr),
      check_types a = .ok () →
      check_types_list (a :: rest) = check_types_list rest) := by
  refine ⟨?_, ?_, ?_, ?_, ?_⟩
  · intro receiver method_name args f hr
    simp [check_types, hr, except_error_bind]
  · intro receiver method_name args f hr ha
    simp [check_types, hr, ha, except_ok_bind, except_error_bind]
  · intro instantiated_type args f ha
    simp [check_types, ha, except_error_bind]
  · intro a rest f haf
    simp [check_types_list, haf, except_error_bind]
  · intro a rest ha
    simp [check_types_list, ha, except_ok_bind]

/-- C6: a ConstructorCall on a type whose is_instantiable flag is false is
rejected with the message that the type is not instantiable, naming it,
even when the supplied arguments match the constructor signature in count
and in types — the instantiability check precedes the arity and
argument-type checks. -/
theorem non_instantiable_rejected
    (instantiated_type : JType) (args : List Expr) (ctor : JConstructor) (ts : List JType)
    (ha : check_types_list args = .ok ())
    (hctor : instantiated_type.constructor = some ctor)
    (hlen : ctor.argument_types.length = args.length)
    (hts : static_types_of args = .ok ts)
    (hcompat : first_bad_index ctor.argument_types ts = none)
    (hinst : instantiated_type.is_instantiable = false) :
    check_types (.constructorCall instantiated_type args) =
      .error (.javaTypeError ("Type " ++ instantiated_type.name ++
        " is not instantiable")) := by
  simp [check_types, ha, hinst, except_ok_bind]

/-- C10: the constructor signature is read only after the instantiability
check has passed; a ConstructorCall on a non-instantiable type that
carries no constructor signature at all still gets the "not instantiable"
JavaTypeError, never the Python-level failure the missing-constructor
access would produce. -/
theorem missing_constructor_unreachable
    (instantiated_type : JType) (args : List Expr)
    (ha : check_types_list args = .ok ())
    (hctor : instantiated_type.constructor = none)
    (hinst : instantiated_type.is_instantiable = false) :
    check_types (.constructorCall instantiated_type args) =
      .error (.javaTypeError ("Type " ++ instantiated_type.name ++
        " is not instantiable")) ∧
    ∀ msg, check_types (.constructorCall instantiated_type args) ≠
      .error (.pythonError msg) := by
  have h : check_types (.constructorCall instantiated_type args) =
      .error (.javaTypeError ("Type " ++ instantiated_type.name ++
        " is not instantiable")) := by
    simp [check_types, ha, hinst, except_ok_bind]
  refine ⟨h, fun msg hcontra => ?_⟩
  rw [h] at hcontra
  simp at hcontra

/-- C7: static_type of each variant equals its specified value — the bound
declared type for a Variable, the bound type for a Literal (the null
literal returning the null type), the resolved method's return type for a
MethodCall, and the instantiated type itself for a ConstructorCall. -/
theorem static_type_spec :
    (∀ (name : String) (declared_type : JType),
      static_type (.var name declared_type) = .ok declared_type) ∧
    (∀ (value : String) (t : JType), static_type (.literal value t) = .ok t) ∧
    static_type null_literal = .ok JType.null ∧
    (∀ (receiver : Expr) (method_name : String) (args : List Expr)
       (receiver_type : JType) (sig : JMethod),
      static_type receiver = .ok receiver_type →
      receiver_type.method_named method_name = some sig →
      static_type (.methodCall receiver method_name args) = .ok sig.return_type) ∧
    (∀ (instantiated_type : JType) (args : List Expr),
      static_type (.constructorCall instantiated_type args) = .ok instantiated_type) := by
  refine ⟨fun _ _ => rfl, fun _ _ => rfl, rfl, ?_, fun _ _ => rfl⟩
  intro receiver method_name args receiver_type sig ht hm
  simp [static_type, ht, hm, except_ok_bind]

/-- C9: checking is read-only and idempotent — in this pure embedding of
the mutation-free source, running check_types twice over the same tree is
the same computation as running it once, with the identical outcome — and
static_type succeeds (deterministically, as a pure function of the tree)
on any expression that has passed check_types. -/
theorem check_types_idempotent_and_safe (e : Expr) :
    ((do check_types e; check_types e) = check_types e) ∧
    (check_types e = .ok () → ∃ t, static_type e = .ok t) := by
  constructor
  · cases h : check_types e with
    | error f => simp [h, except_error_bind]
    | ok u => cases u; simp [h, except_ok_bind]
  · intro h
    cases e with
    | var name declared_type => exact ⟨declared_type, rfl⟩
    | literal value t => exact ⟨t, rfl⟩
    | constructorCall t args => exact ⟨t, rfl⟩
    | methodCall receiver method_name args =>
      cases hr : check_types receiver with
      | error f => simp [check_types, hr, except_error_bind] at h
      | ok u =>
        cases u
        cases ha : check_types_list args with
        | error f => simp [check_types, hr, ha, except_ok_bind, except_error_bind] at h
        | ok u' =>
          cases u'
          cases ht : static_type receiver with
          | error f => simp [check_types, hr, ha, ht, except_ok_bind, except_error_bind] at h
          | ok receiver_type =>
            cases hsub : receiver_type.is_subtype_of JType.object with
            | false => simp [check_types, hr, ha, ht, hsub, except_ok_bind] at h
            | true =>
              cases hm : receiver_type.method_named method_name with
              | none => simp [check_types, hr, ha, ht, hsub, hm, except_ok_bind] at h
              | some sig =>
                exact ⟨sig.return_type, by simp [static_type, ht, hm, except_ok_bind]⟩

/-- C5: a MethodCall whose receiver's static type is not a subtype of the
root reference type is rejected with the message that the type does not
have methods, naming the receiver's static type, whatever the method name
and arguments are — method resolution, the arity check and the
argument-type checks are never reached. -/
theorem receiver_without_methods_rejected
    (receiver : Expr) (method_name : String) (args : List Expr) (receiver_type : JType)
    (hr : check_types receiver = .ok ())
    (ha : check_types_list args = .ok ())
    (ht : static_type receiver = .ok receiver_type)
    (hsub : receiver_type.is_subtype_of JType.object = false) :
    check_types (.methodCall receiver method_name args) =
      .error (.javaTypeError ("Type " ++ receiver_type.name ++
        " does not have methods")) := by
  simp [check_types, hr, ha, ht, hsub, except_ok_bind]

/-- C8: Variable and Literal nodes — the null literal included, which is
nothing but a Literal carrying the null type — always pass the check,
whatever their name, value or bound type. -/
theorem leaves_always_check :
    (∀ (name : String) (declared_type : JType),
        check_types (.var name declared_type) = .ok ()) ∧
    (∀ (value : String) (t : JType), check_types (.literal value t) = .ok ()) ∧
    check_types null_literal = .ok () ∧
    null_literal = .literal "null" JType.null := by
  refine ⟨fun _ _ => ?_, fun _ _ => ?_, ?_, rfl⟩ <;> simp [check_types, null_literal]

/-- Witness for C1: `Dog.feed(Animal, Animal)` called with `(5, new Dog())`
fails at index 0 and reports the full expected and actual sequences; the
`House(Animal)` constructor called with `5` does the same. -/
theorem arg_type_mismatch_first_failure_witness :
    check_types (.methodCall (.var "d" dog) "feed"
        [.literal "5" jint, .constructorCall dog []]) =
      .error (.javaTypeError
        "Dog.feed() expects arguments of type (Animal, Animal), but got (int, Dog)") ∧
    check_types (.constructorCall house [.literal "5" jint]) =
      .error (.javaTypeError
        "House constructor expects arguments of type (Animal), but got (int)") :=
  ⟨arg_type_mismatch_first_failure.1 (.var "d" dog) "feed"
      [.literal "5" jint, .constructorCall dog []] dog
      (.mk "feed" [animal, animal] void_t) [jint, dog] 0
      rfl rfl rfl rfl rfl rfl rfl rfl,
    arg_type_mismatch_first_failure.2 house [.literal "5" jint]
      (.mk [animal]) [jint] 0 rfl rfl rfl rfl rfl rfl⟩

/-- Witness for C2: calling the undeclared method `quack` on a `Dog`
surfaces as the JavaTypeError signal. -/
theorem unresolved_method_is_type_error_witness :
    check_types (.methodCall (.constructorCall dog []) "quack" []) =
      .error (.javaTypeError "Type Dog has no method named quack") :=
  unresolved_method_is_type_error (.constructorCall dog []) "quack" [] dog
    rfl rfl rfl rfl rfl

/-- Witness for C3: the failing subexpression `x.foo()` (with `x : int`)
propagates its own error through every enclosing call. -/
theorem children_checked_before_parent_witness :
    check_types (.methodCall (.methodCall (.var "x" jint) "foo" []) "bark" []) =
      .error (.javaTypeError "Type int does not have methods") ∧
    check_types (.methodCall (.var "d" dog) "bark"
        [.methodCall (.var "x" jint) "foo" []]) =
      .error (.javaTypeError "Type int does not have methods") ∧
    check_types (.constructorCall house [.methodCall (.var "x" jint) "foo" []]) =
      .error (.javaTypeError "Type int does not have methods") ∧
    check_types_list [.methodCall (.var "x" jint) "foo" [], .var "y" animal] =
      .error (.javaTypeError "Type int does not have methods") ∧
    check_types_list [.var "y" animal, .var "z" animal] =
      check_types_list [.var "z" animal] :=
  ⟨children_checked_before_parent.1 (.methodCall (.var "x" jint) "foo" []) "bark" [] _ rfl,
    children_checked_before_parent.2.1 (.var "d" dog) "bark"
      [.methodCall (.var "x" jint) "foo" []] _ rfl rfl,
    children_checked_before_parent.2.2.1 house
      [.methodCall (.var "x" jint) "foo" []] _ rfl,
    children_checked_before_parent.2.2.2.1 (.methodCall (.var "x" jint) "foo" [])
      [.var "y" animal] _ rfl,
    children_checked_before_parent.2.2.2.2 (.var "y" animal) [.var "z" animal] rfl⟩

/-- Witness for C4: `Dog.feed(Animal, Animal)` called with one (compatible)
`Animal` argument, and the `House(Animal)` constructor called with no
arguments, both fail with arity mismatches naming the counts. -/
theorem arity_mismatch_before_arg_types_witness :
    check_types (.methodCall (.var "d" dog) "feed" [.constructorCall animal []]) =
      .error (.javaTypeError
        "Wrong number of arguments for Dog.feed(): expected 2, got 1") ∧
    check_types (.constructorCall house []) =
      .error (.javaTypeError
        "Wrong number of arguments for House constructor: expected 1, got 0") :=
  ⟨arity_mismatch_before_arg_types.1 (.var "d" dog) "feed"
      [.constructorCall animal []] dog (.mk "feed" [animal, animal] void_t)
      rfl rfl rfl rfl rfl (by decide),
    arity_mismatch_before_arg_types.2 house [] (.mk [animal])
      rfl rfl rfl (by decide)⟩

/-- Witness for C5: a method call on a receiver of the primitive type
`int`, which is not a subtype of `Object`, is rejected as having no
methods. -/
theorem receiver_without_methods_rejected_witness :
    check_types (.methodCall (.var "x" jint) "foo" []) =
      .error (.javaTypeError "Type int does not have methods") :=
  receiver_without_methods_rejected (.var "x" jint) "foo" [] jint rfl rfl rfl rfl

/-- Witness for C6: `new Spirit()` matches the declared zero-argument
constructor exactly, yet is rejected because `Spirit` is not
instantiable. -/
theorem non_instantiable_rejected_witness :
    check_types (.constructorCall spirit []) =
      .error (.javaTypeError "Type Spirit is not instantiable") :=
  non_instantiable_rejected spirit [] (.mk []) [] rfl rfl rfl rfl rfl rfl

/-- Witness for C7: the static type of `d.bark()` is the resolved method's
return type `void`. -/
theorem static_type_spec_witness :
    static_type (.methodCall (.var "d" dog) "bark" []) = .ok void_t :=
  static_type_spec.2.2.2.1 (.var "d" dog) "bark" [] dog (.mk "bark" [] void_t) rfl rfl

/-- Witness for C9: `d.bark()` passes the check, so its static type is
defined. -/
theorem check_types_idempotent_and_safe_witness :
    ∃ t, static_type (.methodCall (.var "d" dog) "bark" []) = .ok t :=
  (check_types_idempotent_and_safe (.methodCall (.var "d" dog) "bark" [])).2 rfl

/-- Witness for C10: `new Object()` — `Object` is not instantiable and has
no constructor signature at all — gets the "not instantiable"
JavaTypeError, not a Python-level failure. -/
theorem missing_constructor_unreachable_witness :
    check_types (.constructorCall JType.object []) =
      .error (.javaTypeError "Type Object is not instantiable") ∧
    ∀ msg, check_types (.constructorCall JType.object []) ≠
      .error (.pythonError msg) :=
  missing_constructor_unreachable JType.object [] rfl rfl rfl
